import Mathlib

/-
Verification of osgEarth src/osgEarth/TerrainEngineNode.cpp.

Shallow embedding: the TerrainEngineNode state that the file mutates is a
structure; each member function becomes a Lean function on that structure,
returning the new state together with a trace of the externally observable
calls it makes (hook invocations, layer callback registration, outward
redraw signals). External collaborators (the tile model factory, the map,
the image layers, osg views) are modelled as parameters or as event-trace
observations, since their code is not part of this file.
-/

set_option autoImplicit false

namespace OsgEarth

/-- Effects, layers and callbacks are polymorphic pointer-identified
objects in the C++; each is modelled by an opaque numeric identity. -/
abbrev EffectId := Nat

/-- Identity of an image or elevation layer. -/
abbrev LayerId := Nat

/-- Identity of a registered callback object. -/
abbrev CallbackId := Nat

/-- Externally observable calls made by TerrainEngineNode member
functions: hook invocations on effects, the virtual dirtyState and
onVerticalScaleChanged hooks, registration calls on image layers,
the Terrain elevation notification, the fan-out to tile-model
callbacks, and the outward redraw signal sent to attached views
(the ViewVisitor in requestRedraw). redrawRequested records that
requestRedraw ran; redrawSignal records the outward view
notification, which fires only on the dirty counter 0-to-1
transition. -/
inductive Event where
  | install (e : EffectId)
  | uninstall (e : EffectId)
  | dirtyStateCall
  | redrawRequested
  | redrawSignal
  | elevationChanged
  | layerAddCallback (l : LayerId)
  | layerRemoveCallback (l : LayerId)
  | onCreateTileModel (cb : CallbackId)
  | verticalScaleChanged
  deriving DecidableEq

/-- The mutable per-node state written by TerrainEngineNode.cpp:
the vertical scale, the redraw-coalescing dirty counter, the three
requirement flags whose setters live in this file, the ordered effect
list (effects_), and the two callback registries the file mutates.
The C++ float verticalScale carries no arithmetic in this file, so its
value is modelled as an integer-coded opaque scalar. -/
structure NodeState where
  verticalScale : Int
  dirtyCount : Nat
  requireElevationTextures : Bool
  requireNormalTextures : Bool
  requireParentTextures : Bool
  effects_ : List EffectId
  createTileModelCallbacks : List CallbackId
  tilePatchCallbacks : List CallbackId
  deriving DecidableEq

namespace TerrainEngineNode

/-- The TerrainEngineNode constructor: verticalScale 1, dirtyCount 0,
all requirement flags false, empty registries. -/
def init : NodeState :=
  { verticalScale := 1
    dirtyCount := 0
    requireElevationTextures := false
    requireNormalTextures := false
    requireParentTextures := false
    effects_ := []
    createTileModelCallbacks := []
    tilePatchCallbacks := [] }

/-- requestRedraw: "if (0 == _dirtyCount++) { ViewVisitor visitor;
accept(visitor); }" — increment the dirty counter unconditionally and
send the outward redraw signal to attached views only when the counter
was zero. -/
def requestRedraw (s : NodeState) : NodeState × List Event :=
  ({ s with dirtyCount := s.dirtyCount + 1 },
   if s.dirtyCount = 0 then [Event.redrawRequested, Event.redrawSignal]
   else [Event.redrawRequested])

/-- dirtyTerrain simply calls requestRedraw. -/
def dirtyTerrain (s : NodeState) : NodeState × List Event :=
  requestRedraw s

/-- requireNormalTextures: set the flag and dirty the terrain. -/
def requireNormalTextures (s : NodeState) : NodeState × List Event :=
  dirtyTerrain { s with requireNormalTextures := true }

/-- requireElevationTextures: set the flag and dirty the terrain. -/
def requireElevationTextures (s : NodeState) : NodeState × List Event :=
  dirtyTerrain { s with requireElevationTextures := true }

/-- requireParentTextures: set the flag and dirty the terrain. -/
def requireParentTextures (s : NodeState) : NodeState × List Event :=
  dirtyTerrain { s with requireParentTextures := true }

/-- addEffect: when the effect pointer is non-null, push it on
effects_, call its onInstall hook, and call the virtual dirtyState
hook; a null effect is ignored. dirtyState is declared outside this
file (engine drivers override it), so only its invocation is recorded. -/
def addEffect (s : NodeState) (effect : Option EffectId) : NodeState × List Event :=
  match effect with
  | some e => ({ s with effects_ := s.effects_ ++ [e] }, [Event.install e, Event.dirtyStateCall])
  | none => (s, [])

/-- removeEffect: when the effect pointer is non-null, call its
onUninstall hook, erase the first matching entry of effects_ when
present (std::find followed by a guarded erase), and call dirtyState.
Note the hook and dirtyState run even when the effect is absent from
the list. A null effect is ignored. -/
def removeEffect (s : NodeState) (effect : Option EffectId) : NodeState × List Event :=
  match effect with
  | some e => ({ s with effects_ := s.effects_.erase e }, [Event.uninstall e, Event.dirtyStateCall])
  | none => (s, [])

/-- setVerticalScale: assign the field and call the virtual
onVerticalScaleChanged hook; nothing else happens in the source. -/
def setVerticalScale (s : NodeState) (value : Int) : NodeState × List Event :=
  ({ s with verticalScale := value }, [Event.verticalScaleChanged])

/-- addCreateTileModelCallback: push_back under the write lock. Locking
is modelled away: the lock only serialises accesses and has no effect on
the sequential result. -/
def addCreateTileModelCallback (s : NodeState) (callback : CallbackId) : NodeState :=
  { s with createTileModelCallbacks := s.createTileModelCallbacks ++ [callback] }

/-- removeCreateTileModelCallback: scan the registry and erase the
first matching entry, then break. -/
def removeCreateTileModelCallback (s : NodeState) (callback : CallbackId) : NodeState :=
  { s with createTileModelCallbacks := s.createTileModelCallbacks.erase callback }

/-- addTilePatchCallback: push_back on the registry. -/
def addTilePatchCallback (s : NodeState) (cb : CallbackId) : NodeState :=
  { s with tilePatchCallbacks := s.tilePatchCallbacks ++ [cb] }

/-- Semantics of C++ std::remove(first, last, x) on a vector of
pointers: matching elements are overwritten by the later non-matching
ones, the logical tail keeps its old values, and the container size is
unchanged (std::remove never erases). Position i below the number of
kept elements holds the i-th non-matching element; later positions keep
their original values. -/
def stdRemove (v : List Nat) (x : Nat) : List Nat :=
  let kept := v.filter (fun y => y ≠ x)
  kept ++ v.drop kept.length

/-- removeTilePatchCallback: the source calls std::remove on the
vector but discards the returned iterator and never calls erase, so the
vector keeps its size. -/
def removeTilePatchCallback (s : NodeState) (cb : CallbackId) : NodeState :=
  { s with tilePatchCallbacks := stdRemove s.tilePatchCallbacks cb }

end TerrainEngineNode

/-- Opaque identity of a MapFrame snapshot (borrowed collaborator). -/
structure MapFrame where
  frameId : Nat
  deriving DecidableEq

/-- Opaque tile key: level of detail and grid coordinates. -/
structure TileKey where
  lod : Nat
  tx : Nat
  ty : Nat
  deriving DecidableEq

/-- Opaque request-scoped inclusion-flag set for createTileModel. -/
structure CreateTileModelFilter where
  mask : Nat
  deriving DecidableEq

/-- Opaque progress/cancellation handle. -/
structure ProgressCallback where
  progressId : Nat
  deriving DecidableEq

/-- Opaque render-ready per-tile data bundle built by the factory. -/
structure TerrainTileModel where
  modelId : Nat
  deriving DecidableEq

/-- The TerrainTileModelFactory lives outside this file, so it is an
arbitrary function parameter. It receives the node state because the
source passes the engine node itself as the TerrainEngineRequirements
consulted by the factory. -/
abbrev TileModelFactory :=
  NodeState → MapFrame → TileKey → CreateTileModelFilter → ProgressCallback →
    Option TerrainTileModel

namespace TerrainEngineNode

/-- createTileModel: ask the factory for a model; when the result is
valid, fire every registered CreateTileModelCallback in registration
order under the shared read lock, then return the model; when the
factory returns null, return null without touching the registry. The
node state itself is not mutated. -/
def createTileModel (s : NodeState) (factory : TileModelFactory)
    (frame : MapFrame) (key : TileKey) (filter : CreateTileModelFilter)
    (progress : ProgressCallback) : Option TerrainTileModel × List Event :=
  match factory s frame key filter progress with
  | some model =>
      (some model, s.createTileModelCallbacks.map (fun cb => Event.onCreateTileModel cb))
  | none => (none, [])

end TerrainEngineNode

/-- Modelled from the spec: MapModelChange is declared in a header
outside this file. The handler in this file discriminates only the
ADD_LAYER and REMOVE_LAYER actions; every other action is collapsed
into OTHER_ACTION. -/
inductive MapModelChangeAction where
  | ADD_LAYER
  | REMOVE_LAYER
  | OTHER_ACTION
  deriving DecidableEq

/-- Modelled from the spec: a map model change event carries an action
plus possibly-null image-layer and elevation-layer pointers (the
getImageLayer / getElevationLayer accessors of the header type). -/
structure MapModelChange where
  action : MapModelChangeAction
  imageLayer : Option LayerId
  elevationLayer : Option LayerId
  deriving DecidableEq

namespace TerrainEngineNode

/-- onMapModelChanged: if the change is ADD_LAYER with a non-null image
layer, subscribe the image layer controller to that layer; else if it is
REMOVE_LAYER with a non-null image layer, unsubscribe; independently, if
the change carries a non-null elevation layer, notify the terrain that
map elevation changed; finally, unconditionally call requestRedraw. -/
def onMapModelChanged (s : NodeState) (change : MapModelChange) : NodeState × List Event :=
  let imgEvents :=
    match change.action, change.imageLayer with
    | MapModelChangeAction.ADD_LAYER, some l => [Event.layerAddCallback l]
    | MapModelChangeAction.REMOVE_LAYER, some l => [Event.layerRemoveCallback l]
    | _, _ => []
  let elevEvents :=
    match change.elevationLayer with
    | some _ => [Event.elevationChanged]
    | none => []
  ((requestRedraw s).1, imgEvents ++ elevEvents ++ (requestRedraw s).2)

end TerrainEngineNode

/-- Visitor kinds discriminated by TerrainEngineNode::traverse. -/
inductive VisitorType where
  | EVENT_VISITOR
  | UPDATE_VISITOR
  | CULL_VISITOR
  | NODE_VISITOR
  deriving DecidableEq

namespace TerrainEngineNode

/-- traverse: an event traversal resets the dirty counter to zero; an
update traversal calls the terrain interface update (external, no node
state change); everything else only forwards to the base class. -/
def traverse (s : NodeState) (nv : VisitorType) : NodeState :=
  if nv = VisitorType.EVENT_VISITOR then { s with dirtyCount := 0 } else s

end TerrainEngineNode

/-- One operation of the TerrainEngineNode API surface implemented in
this file that can touch the node state. Used to quantify properties
over every subsequent sequence of operations. -/
inductive Op where
  | addEffectOp (e : Option EffectId)
  | removeEffectOp (e : Option EffectId)
  | requireNormalTexturesOp
  | requireElevationTexturesOp
  | requireParentTexturesOp
  | requestRedrawOp
  | traverseOp (nv : VisitorType)
  | setVerticalScaleOp (v : Int)
  | addCreateTileModelCallbackOp (cb : CallbackId)
  | removeCreateTileModelCallbackOp (cb : CallbackId)
  | addTilePatchCallbackOp (cb : CallbackId)
  | removeTilePatchCallbackOp (cb : CallbackId)
  | onMapModelChangedOp (c : MapModelChange)

/-- Interpret one operation on the node state, collecting its events. -/
def step (s : NodeState) : Op → NodeState × List Event
  | Op.addEffectOp e => TerrainEngineNode.addEffect s e
  | Op.removeEffectOp e => TerrainEngineNode.removeEffect s e
  | Op.requireNormalTexturesOp => TerrainEngineNode.requireNormalTextures s
  | Op.requireElevationTexturesOp => TerrainEngineNode.requireElevationTextures s
  | Op.requireParentTexturesOp => TerrainEngineNode.requireParentTextures s
  | Op.requestRedrawOp => TerrainEngineNode.requestRedraw s
  | Op.traverseOp nv => (TerrainEngineNode.traverse s nv, [])
  | Op.setVerticalScaleOp v => TerrainEngineNode.setVerticalScale s v
  | Op.addCreateTileModelCallbackOp cb => (TerrainEngineNode.addCreateTileModelCallback s cb, [])
  | Op.removeCreateTileModelCallbackOp cb => (TerrainEngineNode.removeCreateTileModelCallback s cb, [])
  | Op.addTilePatchCallbackOp cb => (TerrainEngineNode.addTilePatchCallback s cb, [])
  | Op.removeTilePatchCallbackOp cb => (TerrainEngineNode.removeTilePatchCallback s cb, [])
  | Op.onMapModelChangedOp c => TerrainEngineNode.onMapModelChanged s c

/-- Run a sequence of operations, discarding events. -/
def run (s : NodeState) : List Op → NodeState
  | [] => s
  | op :: rest => run (step s op).1 rest

/-- Modelled from the spec: the MapInfo produced by the map (profile
and geocentric flag); its contents are only forwarded to host
coordinate-system glue by this file. -/
structure MapInfo where
  geocentric : Bool
  deriving DecidableEq

namespace TerrainEngineNode

/-- onMapInfoEstablished: re-derives coordinate-system-node values from
the profile. That work lives entirely in host scene-graph glue and
touches none of the modelled node state; only the fact that the handler
ran is observable here. -/
def onMapInfoEstablished (s : NodeState) (_info : MapInfo) : NodeState :=
  s

end TerrainEngineNode

/-- The world of live engine nodes, addressed by identity: an
osg::observer_ptr lock succeeds exactly when its target is still in
this table. -/
structure World where
  alive : List (Nat × NodeState)
  deriving DecidableEq

/-- Resolve an observer pointer to a temporary strong handle:
osg::observer_ptr::lock succeeds iff the referent is still alive. -/
def lockNode (w : World) (ref : Nat) : Option NodeState :=
  match w.alive.find? (fun p => p.1 = ref) with
  | some p => some p.2
  | none => none

/-- TerrainEngineNodeCallbackProxy: a MapCallback holding a weak
(observer) reference to an engine node. -/
structure TerrainEngineNodeCallbackProxy where
  node : Nat
  deriving DecidableEq

namespace TerrainEngineNodeCallbackProxy

/-- The proxy's onMapModelChanged: lock the weak reference; on success
forward the notification to the node's handler, otherwise drop it. The
result is some (handler output) exactly when the upcall happened; the
function is total, so a dropped notification is never a failure. -/
def onMapModelChanged (proxy : TerrainEngineNodeCallbackProxy) (w : World)
    (change : MapModelChange) : Option (NodeState × List Event) :=
  match lockNode w proxy.node with
  | some safeNode => some (TerrainEngineNode.onMapModelChanged safeNode change)
  | none => none

/-- The proxy's onMapInfoEstablished: same weak-lock guard around the
node's handler. -/
def onMapInfoEstablished (proxy : TerrainEngineNodeCallbackProxy) (w : World)
    (info : MapInfo) : Option NodeState :=
  match lockNode w proxy.node with
  | some safeNode => some (TerrainEngineNode.onMapInfoEstablished safeNode info)
  | none => none

end TerrainEngineNodeCallbackProxy

/-
Map/engine synchronization system, for the subscription invariant.

The map holds the image layer list; the engine node's image layer
controller is subscribed to a layer when that layer's callback list
contains the controller. setMap subscribes the controller to every
image layer already present; afterwards each map mutation is delivered
to the node through onMapModelChanged, whose layerAddCallback /
layerRemoveCallback events are exactly the addCallback / removeCallback
calls the handler performs on the layers.
-/

/-- The joint state of the map's image layer list and the multiset of
layers currently holding an image-layer-controller subscription (one
list entry per active addCallback), together with the node state. -/
structure SysState where
  mapLayers : List LayerId
  subs : List LayerId
  node : NodeState
  deriving DecidableEq

/-- Apply the layer-registration calls of an event trace to the
subscription state: addCallback appends a subscription for the layer,
removeCallback erases one. Other events do not touch layers. -/
def applyLayerEvents (evs : List Event) (subs : List LayerId) : List LayerId :=
  evs.foldl
    (fun acc ev =>
      match ev with
      | Event.layerAddCallback l => acc ++ [l]
      | Event.layerRemoveCallback l => acc.erase l
      | _ => acc)
    subs

/-- A single external map mutation observable by the engine node. -/
inductive MapEvt where
  | addImageLayer (l : LayerId)
  | removeImageLayer (l : LayerId)
  | addElevationLayer (l : LayerId)
  | removeElevationLayer (l : LayerId)
  deriving DecidableEq

/-- The MapModelChange the map fires for each mutation. -/
def changeOf : MapEvt → MapModelChange
  | MapEvt.addImageLayer l =>
      { action := MapModelChangeAction.ADD_LAYER, imageLayer := some l, elevationLayer := none }
  | MapEvt.removeImageLayer l =>
      { action := MapModelChangeAction.REMOVE_LAYER, imageLayer := some l, elevationLayer := none }
  | MapEvt.addElevationLayer l =>
      { action := MapModelChangeAction.ADD_LAYER, imageLayer := none, elevationLayer := some l }
  | MapEvt.removeElevationLayer l =>
      { action := MapModelChangeAction.REMOVE_LAYER, imageLayer := none, elevationLayer := some l }

/-- Effect of one map mutation on the joint state: the map's own layer
list changes, and the node handler's registration calls are applied to
the subscription state. -/
def sysStep (st : SysState) (evt : MapEvt) : SysState :=
  let mapLayersNext :=
    match evt with
    | MapEvt.addImageLayer l => st.mapLayers ++ [l]
    | MapEvt.removeImageLayer l => st.mapLayers.erase l
    | _ => st.mapLayers
  let handled := TerrainEngineNode.onMapModelChanged st.node (changeOf evt)
  { mapLayers := mapLayersNext
    subs := applyLayerEvents handled.2 st.subs
    node := handled.1 }

/-- Run a sequence of map mutations through the system. -/
def sysRun (st : SysState) : List MapEvt → SysState
  | [] => st
  | evt :: rest => sysRun (sysStep st evt) rest

/-- The subscription part of setMap: iterate over the image layers
already in the map and call addCallback for each (the registration loop
at the end of setMap). -/
def setMapSubscribe (layers : List LayerId) (subs : List LayerId) : List LayerId :=
  layers.foldl (fun acc l => acc ++ [l]) subs

/-- setMap restricted to the image-layer subscription bookkeeping this
claim is about: the map holds the given layers and the controller is
subscribed to each pre-existing image layer; the rest of setMap (CSN
setup, texture compositor, factory creation) touches none of this
state. -/
def setMapSystem (s : NodeState) (layers : List LayerId) : SysState :=
  { mapLayers := layers
    subs := setMapSubscribe layers []
    node := s }

/-- Validity of a mutation sequence against the map contract: the map
fires ADD_LAYER only for a layer object not already in the map, and
REMOVE_LAYER only for a layer currently present. Elevation-layer
mutations are unconstrained here. -/
def validEvts (st : SysState) : List MapEvt → Bool
  | [] => true
  | MapEvt.addImageLayer l :: rest =>
      !(st.mapLayers.contains l) && validEvts (sysStep st (MapEvt.addImageLayer l)) rest
  | MapEvt.removeImageLayer l :: rest =>
      st.mapLayers.contains l && validEvts (sysStep st (MapEvt.removeImageLayer l)) rest
  | MapEvt.addElevationLayer l :: rest =>
      validEvts (sysStep st (MapEvt.addElevationLayer l)) rest
  | MapEvt.removeElevationLayer l :: rest =>
      validEvts (sysStep st (MapEvt.removeElevationLayer l)) rest

/-
Theorems.
-/

/-- C10: setVerticalScale assigns the vertical-scale field and invokes
the vertical-scale-changed hook, and nothing else: the dirty counter,
effect list, callback registries and requirement flags are unchanged,
and no redraw or dirty-state signal is raised. -/
theorem setVerticalScale_only_assigns_and_notifies :
    ∀ (s : NodeState) (v : Int),
      TerrainEngineNode.setVerticalScale s v =
        ({ s with verticalScale := v }, [Event.verticalScaleChanged]) ∧
      (TerrainEngineNode.setVerticalScale s v).1.dirtyCount = s.dirtyCount ∧
      (TerrainEngineNode.setVerticalScale s v).1.effects_ = s.effects_ ∧
      (TerrainEngineNode.setVerticalScale s v).1.createTileModelCallbacks =
        s.createTileModelCallbacks ∧
      (TerrainEngineNode.setVerticalScale s v).1.tilePatchCallbacks = s.tilePatchCallbacks ∧
      (TerrainEngineNode.setVerticalScale s v).1.requireNormalTextures =
        s.requireNormalTextures ∧
      (TerrainEngineNode.setVerticalScale s v).1.requireElevationTextures =
        s.requireElevationTextures ∧
      (TerrainEngineNode.setVerticalScale s v).1.requireParentTextures =
        s.requireParentTextures ∧
      Event.redrawSignal ∉ (TerrainEngineNode.setVerticalScale s v).2 ∧
      Event.redrawRequested ∉ (TerrainEngineNode.setVerticalScale s v).2 ∧
      Event.dirtyStateCall ∉ (TerrainEngineNode.setVerticalScale s v).2 := by
  intro s v
  refine ⟨rfl, rfl, rfl, rfl, rfl, rfl, rfl, rfl, ?_, ?_, ?_⟩ <;>
    simp [TerrainEngineNode.setVerticalScale]

/-- C2: onMapModelChanged requests a redraw unconditionally (the dirty
counter is bumped and requestRedraw runs exactly once, with the outward
signal on the zero transition), and its branches are independent: the
event trace is the concatenation of the image-layer branch (subscribe on
ADD_LAYER, unsubscribe on REMOVE_LAYER, nothing otherwise), the
elevation notification when an elevation layer is present, and the
redraw request; in particular an elevation-layer add triggers no image
branch, the elevation notification and the redraw. -/
theorem onMapModelChanged_branch_contract :
    ∀ (s : NodeState) (c : MapModelChange) (el : LayerId),
      (TerrainEngineNode.onMapModelChanged s c).1 =
        { s with dirtyCount := s.dirtyCount + 1 } ∧
      (TerrainEngineNode.onMapModelChanged s c).2 =
        (match c.action, c.imageLayer with
         | MapModelChangeAction.ADD_LAYER, some l => [Event.layerAddCallback l]
         | MapModelChangeAction.REMOVE_LAYER, some l => [Event.layerRemoveCallback l]
         | _, _ => [])
        ++ (match c.elevationLayer with
            | some _ => [Event.elevationChanged]
            | none => [])
        ++ [Event.redrawRequested]
        ++ (if s.dirtyCount = 0 then [Event.redrawSignal] else []) ∧
      (TerrainEngineNode.onMapModelChanged s c).2.count Event.redrawRequested = 1 ∧
      (TerrainEngineNode.onMapModelChanged s
          { action := MapModelChangeAction.ADD_LAYER, imageLayer := none,
            elevationLayer := some el }).2 =
        [Event.elevationChanged] ++ [Event.redrawRequested]
          ++ (if s.dirtyCount = 0 then [Event.redrawSignal] else []) := by
  intro s c el
  obtain ⟨action, img, elev⟩ := c
  refine ⟨rfl, ?_, ?_, ?_⟩ <;>
    cases action <;> cases img <;> cases elev <;>
      by_cases h : s.dirtyCount = 0 <;>
        simp [TerrainEngineNode.onMapModelChanged, TerrainEngineNode.requestRedraw, h]

/-- C8: a notification delivered through the map callback proxy reaches
the engine node's handler if and only if the weak observer reference
resolves to a live node; when the node is gone the notification is
dropped (the proxy is a total function returning none: no handler call,
no failure). -/
theorem proxy_upcall_iff_weak_lock :
    ∀ (proxy : TerrainEngineNodeCallbackProxy) (w : World) (change : MapModelChange)
      (info : MapInfo),
      ((proxy.onMapModelChanged w change).isSome ↔ (lockNode w proxy.node).isSome) ∧
      (∀ n, lockNode w proxy.node = some n →
        proxy.onMapModelChanged w change =
          some (TerrainEngineNode.onMapModelChanged n change)) ∧
      (lockNode w proxy.node = none → proxy.onMapModelChanged w change = none) ∧
      ((proxy.onMapInfoEstablished w info).isSome ↔ (lockNode w proxy.node).isSome) ∧
      (∀ n, lockNode w proxy.node = some n →
        proxy.onMapInfoEstablished w info =
          some (TerrainEngineNode.onMapInfoEstablished n info)) ∧
      (lockNode w proxy.node = none → proxy.onMapInfoEstablished w info = none) := by
  intro proxy w change info
  unfold TerrainEngineNodeCallbackProxy.onMapModelChanged
    TerrainEngineNodeCallbackProxy.onMapInfoEstablished
  cases h : lockNode w proxy.node <;> simp [h]

/-- Witness for C8: with no live node the notification is dropped, and
with the referent alive the handler receives the notification. -/
theorem proxy_upcall_iff_weak_lock_witness :
    TerrainEngineNodeCallbackProxy.onMapModelChanged ⟨5⟩ ⟨[]⟩
        { action := MapModelChangeAction.ADD_LAYER, imageLayer := none,
          elevationLayer := none } = none ∧
    TerrainEngineNodeCallbackProxy.onMapModelChanged ⟨1⟩ ⟨[(1, TerrainEngineNode.init)]⟩
        { action := MapModelChangeAction.ADD_LAYER, imageLayer := none,
          elevationLayer := none } =
      some (TerrainEngineNode.onMapModelChanged TerrainEngineNode.init
        { action := MapModelChangeAction.ADD_LAYER, imageLayer := none,
          elevationLayer := none }) :=
  ⟨(proxy_upcall_iff_weak_lock ⟨5⟩ ⟨[]⟩ _ ⟨true⟩).2.2.1 rfl,
   (proxy_upcall_iff_weak_lock ⟨1⟩ ⟨[(1, TerrainEngineNode.init)]⟩ _ ⟨true⟩).2.1
     TerrainEngineNode.init rfl⟩

/-- C1: createTileModel with a null factory result fires no registered
CreateTileModelCallback and returns null; with a non-null factory model
it fires every currently-registered callback exactly once each, in
registration order, and returns that model. -/
theorem createTileModel_callback_contract :
    ∀ (s : NodeState) (factory : TileModelFactory) (frame : MapFrame) (key : TileKey)
      (filter : CreateTileModelFilter) (progress : ProgressCallback),
      (factory s frame key filter progress = none →
        TerrainEngineNode.createTileModel s factory frame key filter progress = (none, [])) ∧
      (∀ m, factory s frame key filter progress = some m →
        TerrainEngineNode.createTileModel s factory frame key filter progress =
          (some m, s.createTileModelCallbacks.map (fun cb => Event.onCreateTileModel cb))) := by
  intro s factory frame key fl progress
  constructor
  · intro h
    simp [TerrainEngineNode.createTileModel, h]
  · intro m h
    simp [TerrainEngineNode.createTileModel, h]

/-- Witness for C1: with three registered callbacks (one of them twice)
and a factory returning a model, the callbacks fire once per registry
entry in registration order; with a null-returning factory nothing
fires. -/
theorem createTileModel_callback_contract_witness :
    TerrainEngineNode.createTileModel
        { TerrainEngineNode.init with createTileModelCallbacks := [1, 2, 1] }
        (fun _ _ _ _ _ => some ⟨7⟩) ⟨0⟩ ⟨0, 0, 0⟩ ⟨0⟩ ⟨0⟩ =
      (some ⟨7⟩,
        [Event.onCreateTileModel 1, Event.onCreateTileModel 2, Event.onCreateTileModel 1]) ∧
    TerrainEngineNode.createTileModel
        { TerrainEngineNode.init with createTileModelCallbacks := [1, 2, 1] }
        (fun _ _ _ _ _ => none) ⟨0⟩ ⟨0, 0, 0⟩ ⟨0⟩ ⟨0⟩ = (none, []) := by
  constructor
  · have h := (createTileModel_callback_contract
      { TerrainEngineNode.init with createTileModelCallbacks := [1, 2, 1] }
      (fun _ _ _ _ _ => some ⟨7⟩) ⟨0⟩ ⟨0, 0, 0⟩ ⟨0⟩ ⟨0⟩).2 ⟨7⟩ rfl
    simpa using h
  · exact (createTileModel_callback_contract
      { TerrainEngineNode.init with createTileModelCallbacks := [1, 2, 1] }
      (fun _ _ _ _ _ => none) ⟨0⟩ ⟨0, 0, 0⟩ ⟨0⟩ ⟨0⟩).1 rfl

/-- Counterexample to C6 as stated: removeEffect on a non-null effect
that was never added (empty effect list) is not a no-op — it invokes
the effect's uninstall hook and the dirty-state hook. -/
theorem removeEffect_absent_counterexample :
    Event.uninstall 0 ∈ (TerrainEngineNode.removeEffect TerrainEngineNode.init (some 0)).2 ∧
    Event.dirtyStateCall ∈ (TerrainEngineNode.removeEffect TerrainEngineNode.init (some 0)).2 := by
  decide

/-- C6 amended: addEffect and removeEffect on a null effect are
complete no-ops (state unchanged, no hook calls, no dirty signal);
removeEffect on a non-null effect that is not in the effect list leaves
the whole node state — effect list included — unchanged, but it does
invoke the effect's uninstall hook and then the dirty-state signal. -/
theorem null_and_absent_effect_contract :
    ∀ (s : NodeState) (e : EffectId),
      TerrainEngineNode.addEffect s none = (s, []) ∧
      TerrainEngineNode.removeEffect s none = (s, []) ∧
      (e ∉ s.effects_ →
        (TerrainEngineNode.removeEffect s (some e)).1 = s ∧
        (TerrainEngineNode.removeEffect s (some e)).2 =
          [Event.uninstall e, Event.dirtyStateCall]) := by
  intro s e
  refine ⟨rfl, rfl, fun h => ⟨?_, rfl⟩⟩
  have h2 : s.effects_.erase e = s.effects_ := List.erase_of_not_mem h
  simp [TerrainEngineNode.removeEffect, h2]

/-- Witness for C6 amended: removing a never-added effect from a fresh
node leaves the node state unchanged. -/
theorem null_and_absent_effect_contract_witness :
    (0 : EffectId) ∉ TerrainEngineNode.init.effects_ ∧
    (TerrainEngineNode.removeEffect TerrainEngineNode.init (some 0)).1 =
      TerrainEngineNode.init :=
  ⟨by decide,
   ((null_and_absent_effect_contract TerrainEngineNode.init 0).2.2 (by decide)).1⟩

/-- Counterexample to C7 as stated: with prior effect list containing
the effect already (here list 0, 1 and effect 0), addEffect then
removeEffect erases the FIRST occurrence, leaving list 1, 0 — the prior
order is not restored. -/
theorem add_remove_effect_restore_counterexample :
    (TerrainEngineNode.removeEffect
        (TerrainEngineNode.addEffect
          { TerrainEngineNode.init with effects_ := [0, 1] } (some 0)).1
        (some 0)).1.effects_ ≠ [0, 1] := by
  decide

/-- C7 amended: for every non-null effect e, addEffect(e) immediately
followed by removeEffect(e) invokes the install hook exactly once and
then the uninstall hook exactly once, in that order (interleaved with
the dirty-state calls); and when e is not already in the effect list,
the pair restores the entire node state to its prior value. -/
theorem add_then_remove_effect_contract :
    ∀ (s : NodeState) (e : EffectId),
      (TerrainEngineNode.addEffect s (some e)).2 ++
        (TerrainEngineNode.removeEffect
          (TerrainEngineNode.addEffect s (some e)).1 (some e)).2 =
        [Event.install e, Event.dirtyStateCall, Event.uninstall e, Event.dirtyStateCall] ∧
      (e ∉ s.effects_ →
        TerrainEngineNode.removeEffect
          (TerrainEngineNode.addEffect s (some e)).1 (some e) =
            (s, [Event.uninstall e, Event.dirtyStateCall])) := by
  intro s e
  refine ⟨rfl, fun h => ?_⟩
  have h2 : (s.effects_ ++ [e]).erase e = s.effects_ := by
    rw [List.erase_append_right _ h]
    simp
  simp [TerrainEngineNode.addEffect, TerrainEngineNode.removeEffect, h2]

/-- Witness for C7 amended: on a fresh node, add then remove of effect
0 restores the initial state with the install/uninstall pair fired. -/
theorem add_then_remove_effect_contract_witness :
    (0 : EffectId) ∉ TerrainEngineNode.init.effects_ ∧
    TerrainEngineNode.removeEffect
        (TerrainEngineNode.addEffect TerrainEngineNode.init (some 0)).1 (some 0) =
      (TerrainEngineNode.init, [Event.uninstall 0, Event.dirtyStateCall]) :=
  ⟨by decide, (add_then_remove_effect_contract TerrainEngineNode.init 0).2 (by decide)⟩

/-- C9 evaluated at the failing input: removeTilePatchCallback calls
std::remove but discards its result and never erases, so adding
callback 0 to an empty registry and then removing it leaves the
registry still holding the callback instead of restoring the empty
prior state. -/
theorem removeTilePatchCallback_never_erases :
    (TerrainEngineNode.removeTilePatchCallback
        (TerrainEngineNode.addTilePatchCallback TerrainEngineNode.init 0) 0).tilePatchCallbacks
      = [0] ∧
    TerrainEngineNode.init.tilePatchCallbacks = [] := by
  decide

/-- Iterate requestRedraw n times, counting the outward redraw signals
sent to attached views. -/
def iterateRedraw : Nat → NodeState → NodeState × Nat
  | 0, s => (s, 0)
  | n + 1, s =>
      let first := TerrainEngineNode.requestRedraw s
      let rest := iterateRedraw n first.1
      (rest.1, first.2.count Event.redrawSignal + rest.2)

theorem iterateRedraw_dirty_pos (n : Nat) :
    ∀ s : NodeState, s.dirtyCount ≠ 0 →
      (iterateRedraw n s).2 = 0 ∧ (iterateRedraw n s).1.dirtyCount = s.dirtyCount + n := by
  induction n with
  | zero => intro s _; simp [iterateRedraw]
  | succ n ih =>
      intro s h
      have hnext := ih { s with dirtyCount := s.dirtyCount + 1 } (by simp)
      simp only [iterateRedraw, TerrainEngineNode.requestRedraw, if_neg h]
      refine ⟨?_, ?_⟩
      · simp [hnext.1]
      · rw [hnext.2]
        simp
        omega

theorem iterateRedraw_from_zero (n : Nat) (s : NodeState)
    (h : s.dirtyCount = 0) (hn : 1 ≤ n) : (iterateRedraw n s).2 = 1 := by
  cases n with
  | zero => omega
  | succ m =>
      have hrest := iterateRedraw_dirty_pos m { s with dirtyCount := s.dirtyCount + 1 } (by simp)
      simp only [iterateRedraw, TerrainEngineNode.requestRedraw, if_pos h]
      simp [hrest.1]

/-- C4: calling requestRedraw N times, N greater than 1, from a node
whose dirty counter is 0 with no reset-cycle event in between sends
exactly one outward redraw signal; after an event traversal resets the
counter, the next single requestRedraw call sends exactly one more. -/
theorem requestRedraw_coalesces :
    ∀ (n : Nat) (s : NodeState), 1 < n → s.dirtyCount = 0 →
      (iterateRedraw n s).2 = 1 ∧
      (iterateRedraw 1
        (TerrainEngineNode.traverse (iterateRedraw n s).1 VisitorType.EVENT_VISITOR)).2 = 1 := by
  intro n s hn h
  refine ⟨iterateRedraw_from_zero n s h (by omega), ?_⟩
  apply iterateRedraw_from_zero
  · simp [TerrainEngineNode.traverse]
  · omega

/-- Witness for C4: a fresh node, two requestRedraw calls, one signal;
after the event traversal, one further call yields one more signal. -/
theorem requestRedraw_coalesces_witness :
    (1 : Nat) < 2 ∧ TerrainEngineNode.init.dirtyCount = 0 ∧
    (iterateRedraw 2 TerrainEngineNode.init).2 = 1 ∧
    (iterateRedraw 1
      (TerrainEngineNode.traverse (iterateRedraw 2 TerrainEngineNode.init).1
        VisitorType.EVENT_VISITOR)).2 = 1 :=
  ⟨by decide, rfl,
   (requestRedraw_coalesces 2 TerrainEngineNode.init (by decide) rfl).1,
   (requestRedraw_coalesces 2 TerrainEngineNode.init (by decide) rfl).2⟩

theorem step_flags_mono (s : NodeState) (op : Op) :
    (s.requireNormalTextures = true → (step s op).1.requireNormalTextures = true) ∧
    (s.requireElevationTextures = true → (step s op).1.requireElevationTextures = true) ∧
    (s.requireParentTextures = true → (step s op).1.requireParentTextures = true) := by
  cases op with
  | addEffectOp e =>
      cases e <;> simp [step, TerrainEngineNode.addEffect]
  | removeEffectOp e =>
      cases e <;> simp [step, TerrainEngineNode.removeEffect]
  | requireNormalTexturesOp =>
      simp [step, TerrainEngineNode.requireNormalTextures, TerrainEngineNode.dirtyTerrain,
        TerrainEngineNode.requestRedraw]
  | requireElevationTexturesOp =>
      simp [step, TerrainEngineNode.requireElevationTextures, TerrainEngineNode.dirtyTerrain,
        TerrainEngineNode.requestRedraw]
  | requireParentTexturesOp =>
      simp [step, TerrainEngineNode.requireParentTextures, TerrainEngineNode.dirtyTerrain,
        TerrainEngineNode.requestRedraw]
  | requestRedrawOp =>
      simp [step, TerrainEngineNode.requestRedraw]
  | traverseOp nv =>
      by_cases h : nv = VisitorType.EVENT_VISITOR <;> simp [step, TerrainEngineNode.traverse, h]
  | setVerticalScaleOp v =>
      simp [step, TerrainEngineNode.setVerticalScale]
  | addCreateTileModelCallbackOp cb =>
      simp [step, TerrainEngineNode.addCreateTileModelCallback]
  | removeCreateTileModelCallbackOp cb =>
      simp [step, TerrainEngineNode.removeCreateTileModelCallback]
  | addTilePatchCallbackOp cb =>
      simp [step, TerrainEngineNode.addTilePatchCallback]
  | removeTilePatchCallbackOp cb =>
      simp [step, TerrainEngineNode.removeTilePatchCallback]
  | onMapModelChangedOp c =>
      simp [step, TerrainEngineNode.onMapModelChanged, TerrainEngineNode.requestRedraw]

theorem run_flags_mono (ops : List Op) :
    ∀ s : NodeState,
      (s.requireNormalTextures = true → (run s ops).requireNormalTextures = true) ∧
      (s.requireElevationTextures = true → (run s ops).requireElevationTextures = true) ∧
      (s.requireParentTextures = true → (run s ops).requireParentTextures = true) := by
  induction ops with
  | nil => intro s; exact ⟨id, id, id⟩
  | cons op rest ih =>
      intro s
      refine ⟨fun h => ?_, fun h => ?_, fun h => ?_⟩
      · exact (ih (step s op).1).1 ((step_flags_mono s op).1 h)
      · exact (ih (step s op).1).2.1 ((step_flags_mono s op).2.1 h)
      · exact (ih (step s op).1).2.2 ((step_flags_mono s op).2.2 h)

/-- C5: each requirement-flag setter makes its flag read true for the
remainder of the node's lifetime under every subsequent sequence of
operations; each setter call goes through the dirty-terrain path
(exactly one requestRedraw run), and when the dirty counter was 0
immediately prior, the call sends exactly one outward redraw signal. -/
theorem requirement_flag_setters_contract :
    ∀ (s : NodeState) (ops : List Op),
      (run (TerrainEngineNode.requireNormalTextures s).1 ops).requireNormalTextures = true ∧
      (run (TerrainEngineNode.requireElevationTextures s).1 ops).requireElevationTextures
        = true ∧
      (run (TerrainEngineNode.requireParentTextures s).1 ops).requireParentTextures = true ∧
      (TerrainEngineNode.requireNormalTextures s).2.count Event.redrawRequested = 1 ∧
      (TerrainEngineNode.requireElevationTextures s).2.count Event.redrawRequested = 1 ∧
      (TerrainEngineNode.requireParentTextures s).2.count Event.redrawRequested = 1 ∧
      (s.dirtyCount = 0 →
        (TerrainEngineNode.requireNormalTextures s).2.count Event.redrawSignal = 1 ∧
        (TerrainEngineNode.requireElevationTextures s).2.count Event.redrawSignal = 1 ∧
        (TerrainEngineNode.requireParentTextures s).2.count Event.redrawSignal = 1) := by
  intro s ops
  refine ⟨?_, ?_, ?_, ?_, ?_, ?_, ?_⟩
  · exact (run_flags_mono ops _).1 (by
      simp [TerrainEngineNode.requireNormalTextures, TerrainEngineNode.dirtyTerrain,
        TerrainEngineNode.requestRedraw])
  · exact (run_flags_mono ops _).2.1 (by
      simp [TerrainEngineNode.requireElevationTextures, TerrainEngineNode.dirtyTerrain,
        TerrainEngineNode.requestRedraw])
  · exact (run_flags_mono ops _).2.2 (by
      simp [TerrainEngineNode.requireParentTextures, TerrainEngineNode.dirtyTerrain,
        TerrainEngineNode.requestRedraw])
  · by_cases h : s.dirtyCount = 0 <;>
      simp [TerrainEngineNode.requireNormalTextures, TerrainEngineNode.dirtyTerrain,
        TerrainEngineNode.requestRedraw, h]
  · by_cases h : s.dirtyCount = 0 <;>
      simp [TerrainEngineNode.requireElevationTextures, TerrainEngineNode.dirtyTerrain,
        TerrainEngineNode.requestRedraw, h]
  · by_cases h : s.dirtyCount = 0 <;>
      simp [TerrainEngineNode.requireParentTextures, TerrainEngineNode.dirtyTerrain,
        TerrainEngineNode.requestRedraw, h]
  · intro h
    refine ⟨?_, ?_, ?_⟩ <;>
      simp [TerrainEngineNode.requireNormalTextures, TerrainEngineNode.requireElevationTextures,
        TerrainEngineNode.requireParentTextures, TerrainEngineNode.dirtyTerrain,
        TerrainEngineNode.requestRedraw, h]

/-- Witness for C5: on a fresh node (dirty counter 0) the
normal-texture setter leaves the flag true across a later redraw and
event traversal, and its own call signals exactly one redraw. -/
theorem requirement_flag_setters_contract_witness :
    TerrainEngineNode.init.dirtyCount = 0 ∧
    (run (TerrainEngineNode.requireNormalTextures TerrainEngineNode.init).1
        [Op.requestRedrawOp, Op.traverseOp VisitorType.EVENT_VISITOR,
          Op.setVerticalScaleOp 3]).requireNormalTextures = true ∧
    (TerrainEngineNode.requireNormalTextures TerrainEngineNode.init).2.count
        Event.redrawSignal = 1 :=
  ⟨rfl,
   (requirement_flag_setters_contract TerrainEngineNode.init
     [Op.requestRedrawOp, Op.traverseOp VisitorType.EVENT_VISITOR,
       Op.setVerticalScaleOp 3]).1,
   ((requirement_flag_setters_contract TerrainEngineNode.init []).2.2.2.2.2.2 rfl).1⟩

theorem setMapSubscribe_eq (layers : List LayerId) :
    ∀ subs : List LayerId, setMapSubscribe layers subs = subs ++ layers := by
  induction layers with
  | nil => intro subs; simp [setMapSubscribe]
  | cons l rest ih =>
      intro subs
      simp only [setMapSubscribe, List.foldl_cons] at *
      rw [ih]
      simp

theorem sysStep_subs (st : SysState) (evt : MapEvt) :
    (sysStep st evt).subs =
      (match evt with
       | MapEvt.addImageLayer l => st.subs ++ [l]
       | MapEvt.removeImageLayer l => st.subs.erase l
       | _ => st.subs) := by
  cases evt <;> by_cases h : st.node.dirtyCount = 0 <;>
    simp [sysStep, TerrainEngineNode.onMapModelChanged, TerrainEngineNode.requestRedraw,
      changeOf, applyLayerEvents, h]

theorem sysStep_mapLayers (st : SysState) (evt : MapEvt) :
    (sysStep st evt).mapLayers =
      (match evt with
       | MapEvt.addImageLayer l => st.mapLayers ++ [l]
       | MapEvt.removeImageLayer l => st.mapLayers.erase l
       | _ => st.mapLayers) := by
  cases evt <;> rfl

theorem sysRun_inv (evts : List MapEvt) :
    ∀ st : SysState, st.subs = st.mapLayers → st.mapLayers.Nodup →
      validEvts st evts = true →
      (sysRun st evts).subs = (sysRun st evts).mapLayers ∧
        (sysRun st evts).mapLayers.Nodup := by
  induction evts with
  | nil => intro st h1 h2 _; exact ⟨h1, h2⟩
  | cons evt rest ih =>
      intro st h1 h2 hv
      cases evt with
      | addImageLayer l =>
          simp only [validEvts, Bool.and_eq_true, Bool.not_eq_true'] at hv
          have hmem : l ∉ st.mapLayers := by
            simpa using hv.1
          refine ih _ ?_ ?_ hv.2
          · rw [sysStep_subs, sysStep_mapLayers, h1]
          · rw [sysStep_mapLayers]
            simp [List.nodup_append, h2, hmem]
      | removeImageLayer l =>
          simp only [validEvts, Bool.and_eq_true] at hv
          refine ih _ ?_ ?_ hv.2
          · rw [sysStep_subs, sysStep_mapLayers, h1]
          · rw [sysStep_mapLayers]
            exact h2.erase l
      | addElevationLayer l =>
          simp only [validEvts] at hv
          refine ih _ ?_ ?_ hv
          · rw [sysStep_subs, sysStep_mapLayers, h1]
          · rw [sysStep_mapLayers]
            exact h2
      | removeElevationLayer l =>
          simp only [validEvts] at hv
          refine ih _ ?_ ?_ hv
          · rw [sysStep_subs, sysStep_mapLayers, h1]
          · rw [sysStep_mapLayers]
            exact h2

/-- C3: starting from setMap on a map whose image layers are distinct,
after any valid sequence of ADD_LAYER and REMOVE_LAYER changes handled
through onMapModelChanged, the layers holding an active
image-layer-controller subscription are exactly the image layers
currently in the map, each with exactly one subscription. -/
theorem image_layer_subscription_invariant :
    ∀ (s : NodeState) (layers : List LayerId) (evts : List MapEvt),
      layers.Nodup → validEvts (setMapSystem s layers) evts = true →
      (sysRun (setMapSystem s layers) evts).subs =
        (sysRun (setMapSystem s layers) evts).mapLayers ∧
      (∀ l : LayerId,
        ((sysRun (setMapSystem s layers) evts).subs.count l =
          if l ∈ (sysRun (setMapSystem s layers) evts).mapLayers then 1 else 0)) := by
  intro s layers evts hnd hv
  have hsub : (setMapSystem s layers).subs = (setMapSystem s layers).mapLayers := by
    simp [setMapSystem, setMapSubscribe_eq]
  have h := sysRun_inv evts _ hsub (by simpa [setMapSystem] using hnd) hv
  refine ⟨h.1, fun l => ?_⟩
  rw [h.1]
  by_cases hm : l ∈ (sysRun (setMapSystem s layers) evts).mapLayers
  · rw [if_pos hm]
    exact List.count_eq_one_of_mem h.2 hm
  · rw [if_neg hm]
    exact List.count_eq_zero_of_not_mem hm

/-- Witness for C3: map set up with layers 0 and 1, then an image-layer
add, an image-layer remove and an elevation-layer add; the subscribed
set equals the map's image-layer set, with layer 1 subscribed exactly
once. -/
theorem image_layer_subscription_invariant_witness :
    ([0, 1] : List LayerId).Nodup ∧
    validEvts (setMapSystem TerrainEngineNode.init [0, 1])
      [MapEvt.addImageLayer 2, MapEvt.removeImageLayer 0, MapEvt.addElevationLayer 9]
      = true ∧
    (sysRun (setMapSystem TerrainEngineNode.init [0, 1])
      [MapEvt.addImageLayer 2, MapEvt.removeImageLayer 0,
        MapEvt.addElevationLayer 9]).subs =
      (sysRun (setMapSystem TerrainEngineNode.init [0, 1])
        [MapEvt.addImageLayer 2, MapEvt.removeImageLayer 0,
          MapEvt.addElevationLayer 9]).mapLayers ∧
    (sysRun (setMapSystem TerrainEngineNode.init [0, 1])
      [MapEvt.addImageLayer 2, MapEvt.removeImageLayer 0,
        MapEvt.addElevationLayer 9]).subs.count 1 =
      if 1 ∈ (sysRun (setMapSystem TerrainEngineNode.init [0, 1])
        [MapEvt.addImageLayer 2, MapEvt.removeImageLayer 0,
          MapEvt.addElevationLayer 9]).mapLayers then 1 else 0 :=
  ⟨by decide, by decide,
   (image_layer_subscription_invariant TerrainEngineNode.init [0, 1]
     [MapEvt.addImageLayer 2, MapEvt.removeImageLayer 0, MapEvt.addElevationLayer 9]
     (by decide) (by decide)).1,
   (image_layer_subscription_invariant TerrainEngineNode.init [0, 1]
     [MapEvt.addImageLayer 2, MapEvt.removeImageLayer 0, MapEvt.addElevationLayer 9]
     (by decide) (by decide)).2 1⟩

end OsgEarth
